import Mathlib

/-!
Shallow embedding of the NonVolatileDataVerification repository
(`src/__init__.py`, `src/verification.py`): NV item model, definition
reader, definition trimmer, verifier/comparator and report publisher,
together with theorems checking the specification claims against it.
-/

/-- Python `str.strip()` on a character list: drop leading and trailing
whitespace. -/
def pyStripChars (s : List Char) : List Char :=
  ((s.dropWhile Char.isWhitespace).reverse.dropWhile Char.isWhitespace).reverse

/-- Python `str.strip()`. -/
def pyStrip (s : String) : String :=
  String.mk (pyStripChars s.data)

/-- Python `str.lower()` (ASCII case folding, as in the files at hand). -/
def pyLower (s : String) : String :=
  String.mk (s.data.map Char.toLower)

/-- Numeric value of a list of decimal digits. -/
def digitsVal (ds : List Char) : Nat :=
  ds.foldl (fun acc c => acc * 10 + (c.toNat - 48)) 0

/-- Python `int(s)` on a string: surrounding whitespace allowed, optional
sign, then a nonempty run of decimal digits; anything else raises
`ValueError`, modelled as `none`. -/
def pyInt (s : String) : Option Int :=
  match pyStripChars s.data with
  | '-' :: ds =>
      if ds ≠ [] ∧ ds.all Char.isDigit then some (-(digitsVal ds : Int)) else none
  | '+' :: ds =>
      if ds ≠ [] ∧ ds.all Char.isDigit then some (digitsVal ds : Int) else none
  | ds =>
      if ds ≠ [] ∧ ds.all Char.isDigit then some (digitsVal ds : Int) else none

/-- NV item type tags (`NV_TYPE_EFS`, `NV_TYPE_ETS`, `NV_TYPE_TA`,
`NV_TYPE_NV` in `src/__init__.py`). -/
inductive NVType where
  | EFS
  | ETS
  | TA
  | NV
deriving DecidableEq, Repr

/-- `NV_TYPE_EFS_RANGE` in `src/__init__.py`. -/
def NV_TYPE_EFS_RANGE : Int := 65535

/-- The `NVItem` record of `src/__init__.py`: id, name, comma-joined value
string, and derived type. -/
structure NVItem where
  nv_id : Int
  nv_name : String
  nv_values : String
  nv_type : NVType := NVType.NV
deriving DecidableEq, Repr

/-- `NVAutomation._get_nv_type` (`src/__init__.py` lines 79-96): starts at
`NV`, upgrades to `TA`/`ETS` from the calibrated attribute, then overrides
with `EFS` for ids above the EFS range. -/
def _get_nv_type (nv_id : Int) (nv_calibrated : String) : NVType :=
  let nv_type := NVType.NV
  let nv_type :=
    if pyLower (pyStrip nv_calibrated) = "true" then NVType.TA
    else if pyLower (pyStrip nv_calibrated) = "ets" then NVType.ETS
    else nv_type
  let nv_type := if nv_id > NV_TYPE_EFS_RANGE then NVType.EFS else nv_type
  nv_type

/-- A parsed XML `<NvItem>` element as `xml.dom.minidom` hands it to
`_read_nv_items`: the attribute map (a missing attribute is simply absent;
`getAttribute` then returns the empty string) and the list of child nodes,
each recorded by its `nodeValue` (`some` text for a text node, `none` for
an element child, whose `nodeValue` is Python `None`). -/
structure RawElement where
  attrs : List (String × String)
  childNodes : List (Option String)
deriving DecidableEq, Repr

/-- `minidom` `Element.getAttribute`: the attribute value, or `""` when the
attribute is absent. -/
def getAttribute (e : RawElement) (attr : String) : String :=
  (e.attrs.lookup attr).getD ""

/-- How a read of one `NvItem` element can abort in `_read_nv_items`:
either wrapped into the domain error `NVAutomationError` (lines 127-132 of
`src/__init__.py`), or an uncaught `IndexError` from `tag.childNodes[0]`
at line 119, which sits outside the `try` block. -/
inductive ReadError where
  | nvAutomationError
  | indexError
deriving DecidableEq, Repr

/-- The body of the element loop of `NVAutomation._read_nv_items`
(`src/__init__.py` lines 116-132) for a single `<NvItem>` element, with
Python's evaluation order: `tag.childNodes[0].nodeValue` first (IndexError
when there are no children), then inside the `try`: `int(nv_id)`
(ValueError on a non-integer id, wrapped), then `nv_values.strip()`
(AttributeError when the first child's nodeValue is `None`, wrapped). -/
def readOneNvItem (e : RawElement) : Except ReadError NVItem :=
  let nv_id := getAttribute e "id"
  let nv_name := getAttribute e "name"
  match e.childNodes.head? with
  | none => .error .indexError
  | some nv_values =>
    let nv_calibrated := getAttribute e "calibrated"
    match pyInt nv_id with
    | none => .error .nvAutomationError
    | some i =>
      match nv_values with
      | none => .error .nvAutomationError
      | some v =>
          .ok { nv_id := i, nv_name := pyStrip nv_name, nv_values := pyStrip v,
                nv_type := _get_nv_type i nv_calibrated }

/-- `NVAutomation._read_nv_items` (`src/__init__.py` lines 98-134) on an
already-parsed DOM, given as the list of its `<NvItem>` elements in
document order: items are accumulated in order and the first failing
element aborts the whole read. -/
def _read_nv_items : List RawElement → Except ReadError (List NVItem)
  | [] => .ok []
  | e :: rest =>
    match readOneNvItem e with
    | .error err => .error err
    | .ok nv_item =>
      match _read_nv_items rest with
      | .error err => .error err
      | .ok nv_items => .ok (nv_item :: nv_items)

/-- Comparator result strings `RESULT_OK` / `RESULT_NG` of
`src/verification.py`. -/
inductive VResult where
  | OK
  | NG
deriving DecidableEq, Repr

/-- The `VerificationItem` record of `src/verification.py` lines 58-71. -/
structure VerificationItem where
  input_nv_item : NVItem
  output_nv_item : NVItem
  verification_result : VResult
deriving DecidableEq, Repr

/-- Rendered per-row verification states `RESULT_PASSED` / `RESULT_FAILED`
/ `RESULT_SKIPPED` of `src/verification.py` (HTML span markup dropped). -/
inductive RowState where
  | PASSED
  | FAILED
  | SKIPPED
deriving DecidableEq, Repr

/-- Overall report summary `REPORT_SUMMARY_PASSED` / `REPORT_SUMMARY_FAILED`
of `src/verification.py` (HTML span markup dropped). -/
inductive Summary where
  | PASSED
  | FAILED
deriving DecidableEq, Repr

/-- The inner search loop of `NVAutomationQCT.verify`
(`src/verification.py` lines 101-106), also the one of
`NVAutomation._update_nv_items_with_def_file` (`src/__init__.py` lines
203-207): scan the list in order and stop (`break`) at the first element
whose id and name both equal the probe item's. -/
def findMatch (a : NVItem) : List NVItem → Option NVItem
  | [] => none
  | o :: rest =>
      if a.nv_id = o.nv_id ∧ a.nv_name = o.nv_name then some o
      else findMatch a rest

/-- The body of the outer loop of `NVAutomationQCT.verify`
(`src/verification.py` lines 100-123) for one input item: pair it with the
first (id, name)-matching device-read item and compare values, or with the
sentinel empty `NVItem(-1, "", "")` and result `NG` when nothing matches. -/
def verifyOne (output_nv_items : List NVItem) (in_nv_item : NVItem) :
    VerificationItem :=
  match findMatch in_nv_item output_nv_items with
  | some out_nv_item =>
      if in_nv_item.nv_values = out_nv_item.nv_values then
        ⟨in_nv_item, out_nv_item, VResult.OK⟩
      else
        ⟨in_nv_item, out_nv_item, VResult.NG⟩
  | none => ⟨in_nv_item, ⟨-1, "", "", NVType.NV⟩, VResult.NG⟩

/-- The rendered verification state of one result row, from the body of
the report loop of `NVAutomationQCT.publish_verification_result`
(`src/verification.py` lines 170-180), in the source's branch order:
`FAILED` when the input type is plain NV and the comparator said NG, else
`SKIPPED` when the input type is not plain NV, else `PASSED`. -/
def renderRowState (result : VerificationItem) : RowState :=
  if result.input_nv_item.nv_type = NVType.NV ∧
      result.verification_result = VResult.NG then RowState.FAILED
  else if result.input_nv_item.nv_type ≠ NVType.NV then RowState.SKIPPED
  else RowState.PASSED

/-- `NVAutomationQCT.publish_verification_result` (`src/verification.py`
lines 153-193), modelled up to string templating: the summary starts
`FAILED` for an empty result list and `PASSED` otherwise, and the single
pass over the rows renders each row's state while flipping the summary to
`FAILED` whenever a plain-NV row compares NG. The returned pair is
(summary substituted into the footer, rendered row states in order). -/
def publish_verification_result (result_list : List VerificationItem) :
    Summary × List RowState :=
  let summary := if result_list = [] then Summary.FAILED else Summary.PASSED
  result_list.foldl
    (fun acc result =>
      let summary :=
        if result.input_nv_item.nv_type = NVType.NV ∧
            result.verification_result = VResult.NG then Summary.FAILED
        else acc.1
      (summary, acc.2 ++ [renderRowState result]))
    (summary, [])

/-- The error raised by `NVAutomationQCT.verify` (`src/verification.py`
lines 97-99) when the input or device-read item list is empty
(`NVAutomationError("Can-t verify. Problem in input or output nv items.")`). -/
inductive VerifyError where
  | emptyItems
deriving DecidableEq, Repr

/-- `NVAutomationQCT.verify` (`src/verification.py` lines 86-129), taking
the already-read input item list (after the definition-file cross
reference) and device-read output item list: fail fast when either list is
empty, otherwise build one `VerificationItem` per input item in input
order, and publish the report only when a report file was requested. -/
def verify (input_nv_items output_nv_items : List NVItem)
    (report_file : Bool) :
    Except VerifyError (List VerificationItem × Option (Summary × List RowState)) :=
  if input_nv_items = [] ∨ output_nv_items = [] then
    .error .emptyItems
  else
    let verification_result_list := input_nv_items.map (verifyOne output_nv_items)
    .ok (verification_result_list,
         if report_file then some (publish_verification_result verification_result_list)
         else none)

/-- `NVAutomation._update_nv_items_with_def_file` (`src/__init__.py` lines
194-209), with the definition items already read from the trimmed
definition file: each input item whose (id, name) matches a definition
item takes that first matching definition item's type; the in-place
mutation is modelled by returning the updated list. -/
def _update_nv_items_with_def_file
    (input_nv_item_list def_nv_item_list : List NVItem) : List NVItem :=
  input_nv_item_list.map (fun nv_item =>
    match findMatch nv_item def_nv_item_list with
    | some def_nv_item => { nv_item with nv_type := def_nv_item.nv_type }
    | none => nv_item)

/-- A `<DataType>` element of the master definition file, kept opaque:
the trimmer copies these verbatim and never inspects them. -/
structure DataTypeElem where
  xml : String
deriving DecidableEq, Repr

/-- An `<NvItem>` element of the master definition file as the trimmer
sees it: its `id` attribute string and its (never inspected) remaining
content. -/
structure RawNvDef where
  id_attr : String
  xml : String
deriving DecidableEq, Repr

/-- A master definition document per the schema of the spec (root element
holding `<DataType>` elements and `<NvItem>` elements as siblings), in
document order. -/
structure MasterDoc where
  dataTypes : List DataTypeElem
  nvItems : List RawNvDef
deriving DecidableEq, Repr

/-- The trimmed `<NvDefinition>` document written by
`create_new_definition_file`: all master `DataType` elements followed by
the kept `NvItem` elements. -/
structure TrimmedDoc where
  dataTypes : List DataTypeElem
  nvItems : List RawNvDef
deriving DecidableEq, Repr

/-- Failure of the trimming loop, wrapped into `NVAutomationError` by
`src/__init__.py` lines 180-192 (e.g. the `ValueError` from `int(tag_id)`
on a non-integer id attribute). -/
inductive TrimError where
  | nvAutomationError
deriving DecidableEq, Repr

/-- The `NvItem` filtering loop of `NVAutomation.create_new_definition_file`
(`src/__init__.py` lines 172-176): for each `<NvItem>` of the master file,
compare each input id against `int(tag_id)`. `int(tag_id)` is evaluated
only when the input id list is nonempty (the inner loop body runs at least
once); a non-integer id then raises `ValueError`, wrapped into the domain
error. `appendChild` moves a DOM node, so appending the same element once
per matching input id still yields a single occurrence in the new
document; the net effect per element is: kept iff some input id equals its
parsed id. -/
def trimNvItems (input_nv_id_list : List Int) :
    List RawNvDef → Except TrimError (List RawNvDef)
  | [] => .ok []
  | tag :: rest =>
    if input_nv_id_list = [] then trimNvItems input_nv_id_list rest
    else
      match pyInt tag.id_attr with
      | none => .error .nvAutomationError
      | some tag_id =>
        match trimNvItems input_nv_id_list rest with
        | .error e => .error e
        | .ok kept =>
            .ok (if input_nv_id_list.contains tag_id then tag :: kept else kept)

/-- `NVAutomation.create_new_definition_file` (`src/__init__.py` lines
136-192) on an already-parsed master document: build the new document from
every `DataType` element plus the id-filtered `NvItem` elements and write
it out. The second component of the successful result is the function's
Python return value: the function body has no `return` statement, so it
returns `None` (modelled as `none`), its docstring notwithstanding. -/
def create_new_definition_file (input_nv_id_list : List Int)
    (master : MasterDoc) : Except TrimError (TrimmedDoc × Option String) :=
  match trimNvItems input_nv_id_list master.nvItems with
  | .error e => .error e
  | .ok kept => .ok (⟨master.dataTypes, kept⟩, none)

/-- Python `re.search` with a literal pattern, as used on template lines:
does `pat` occur as a contiguous substring of `s`? -/
def reSearch (pat : String) (s : String) : Bool :=
  go pat.data s.data
where
  go (p : List Char) : List Char → Bool
    | [] => p.isEmpty
    | c :: rest => p.isPrefixOf (c :: rest) || go p rest

/-- Fuel-driven core of Python `str.replace(pat, "")` (replace every
occurrence of `pat` with the empty string); fuel `s.length` suffices since
every step consumes at least one character. -/
def replaceEmptyFuel (p : List Char) : Nat → List Char → List Char
  | 0, s => s
  | _ + 1, [] => []
  | n + 1, c :: rest =>
      if !p.isEmpty && p.isPrefixOf (c :: rest) then
        replaceEmptyFuel p n ((c :: rest).drop p.length)
      else
        c :: replaceEmptyFuel p n rest

/-- Python `s.replace(pat, "")`. -/
def pyReplaceEmpty (s pat : String) : String :=
  String.mk (replaceEmptyFuel pat.data s.data.length s.data)

/-- How `NVAutomationQCT._read_report_template` can fail: the `IOError`
from an unreadable template file is wrapped into `NVAutomationError`
(lines 147-149 of `src/verification.py`); a marker variable never assigned
in the line loop surfaces as an uncaught `UnboundLocalError` at the
`return` statement, which no handler wraps. -/
inductive TemplateError where
  | nvAutomationError
  | unboundLocalError
deriving DecidableEq, Repr

/-- One step of the line loop of `NVAutomationQCT._read_report_template`
(`src/verification.py` lines 140-146): an `if`/`elif` chain assigns the
header, values or footer fragment from the first marker found on the line. -/
def templateLineStep (acc : Option String × Option String × Option String)
    (line : String) : Option String × Option String × Option String :=
  if reSearch "%header%" line then
    (some (pyReplaceEmpty (pyStrip line) "%header%"), acc.2.1, acc.2.2)
  else if reSearch "%values%" line then
    (acc.1, some (pyReplaceEmpty (pyStrip line) "%values%"), acc.2.2)
  else if reSearch "%footer%" line then
    (acc.1, acc.2.1, some (pyReplaceEmpty (pyStrip line) "%footer%"))
  else acc

/-- `NVAutomationQCT._read_report_template` (`src/verification.py` lines
131-151). The file argument is `none` when the template file cannot be
opened (Python `IOError`, wrapped into the domain error), otherwise the
list of its lines. The three local variables start unassigned; returning
with any of them still unassigned raises `UnboundLocalError`. -/
def _read_report_template (file : Option (List String)) :
    Except TemplateError (String × String × String) :=
  match file with
  | none => .error .nvAutomationError
  | some lines =>
    match lines.foldl templateLineStep (none, none, none) with
    | (some report_header, some report_values, some report_footer) =>
        .ok (report_header, report_values, report_footer)
    | _ => .error .unboundLocalError

/-! ## Helper lemmas -/

theorem findMatch_eq_some {a o : NVItem} {l : List NVItem}
    (h : findMatch a l = some o) :
    o ∈ l ∧ a.nv_id = o.nv_id ∧ a.nv_name = o.nv_name := by
  induction l with
  | nil => simp [findMatch] at h
  | cons x rest ih =>
    rw [findMatch] at h
    split at h
    · rename_i hc
      injection h with h2
      subst h2
      exact ⟨List.mem_cons_self x rest, hc⟩
    · obtain ⟨hm, hprops⟩ := ih h
      exact ⟨List.mem_cons_of_mem x hm, hprops⟩

theorem findMatch_eq_none_iff (a : NVItem) (l : List NVItem) :
    findMatch a l = none ↔
      ∀ o ∈ l, ¬(a.nv_id = o.nv_id ∧ a.nv_name = o.nv_name) := by
  induction l with
  | nil => simp [findMatch]
  | cons x rest ih =>
    rw [findMatch]
    split
    · rename_i hc
      constructor
      · intro h
        simp at h
      · intro hall
        exact absurd hc (hall x (List.mem_cons_self x rest))
    · rename_i hc
      rw [ih]
      constructor
      · intro hall o ho
        rcases List.mem_cons.mp ho with rfl | ho'
        · exact hc
        · exact hall o ho'
      · intro hall o ho
        exact hall o (List.mem_cons_of_mem x ho)

theorem findMatch_isSome_iff (a : NVItem) (l : List NVItem) :
    (findMatch a l).isSome ↔
      ∃ o ∈ l, a.nv_id = o.nv_id ∧ a.nv_name = o.nv_name := by
  induction l with
  | nil => simp [findMatch]
  | cons x rest ih =>
    rw [findMatch]
    split
    · rename_i hc
      simp only [Option.isSome_some, true_iff]
      exact ⟨x, List.mem_cons_self x rest, hc⟩
    · rename_i hc
      rw [ih]
      constructor
      · rintro ⟨o, ho, hp⟩
        exact ⟨o, List.mem_cons_of_mem x ho, hp⟩
      · rintro ⟨o, ho, hp⟩
        rcases List.mem_cons.mp ho with rfl | ho'
        · exact absurd hp hc
        · exact ⟨o, ho', hp⟩

theorem publish_foldl_split (l : List VerificationItem) (s : Summary)
    (acc : List RowState) :
    l.foldl
      (fun acc result =>
        let summary :=
          if result.input_nv_item.nv_type = NVType.NV ∧
              result.verification_result = VResult.NG then Summary.FAILED
          else acc.1
        (summary, acc.2 ++ [renderRowState result]))
      (s, acc) =
    (l.foldl
      (fun s result =>
        if result.input_nv_item.nv_type = NVType.NV ∧
            result.verification_result = VResult.NG then Summary.FAILED
        else s) s,
     acc ++ l.map renderRowState) := by
  induction l generalizing s acc with
  | nil => simp
  | cons x rest ih =>
    simp only [List.foldl_cons, List.map_cons]
    rw [ih]
    simp

theorem summary_foldl_failed_iff (l : List VerificationItem) (s : Summary) :
    l.foldl
      (fun s result =>
        if result.input_nv_item.nv_type = NVType.NV ∧
            result.verification_result = VResult.NG then Summary.FAILED
        else s) s = Summary.FAILED ↔
      (s = Summary.FAILED ∨ ∃ result ∈ l,
        result.input_nv_item.nv_type = NVType.NV ∧
        result.verification_result = VResult.NG) := by
  induction l generalizing s with
  | nil => simp
  | cons x rest ih =>
    simp only [List.foldl_cons]
    rw [ih]
    by_cases hx : x.input_nv_item.nv_type = NVType.NV ∧
        x.verification_result = VResult.NG
    · simp [hx]
    · simp only [hx, if_false]
      constructor
      · rintro (hs | hr)
        · exact Or.inl hs
        · exact Or.inr ⟨hr.choose, List.mem_cons_of_mem x hr.choose_spec.1,
            hr.choose_spec.2⟩
      · rintro (hs | ⟨r, hr, hp⟩)
        · exact Or.inl hs
        · rcases List.mem_cons.mp hr with rfl | hr'
          · exact absurd hp hx
          · exact Or.inr ⟨r, hr', hp⟩

theorem renderRowState_eq (result : VerificationItem) :
    renderRowState result =
      (if result.input_nv_item.nv_type ≠ NVType.NV then RowState.SKIPPED
       else if result.verification_result = VResult.NG then RowState.FAILED
       else RowState.PASSED) := by
  unfold renderRowState
  by_cases h1 : result.input_nv_item.nv_type = NVType.NV <;>
    by_cases h2 : result.verification_result = VResult.NG <;>
      simp [h1, h2]

theorem trimNvItems_nil_ids (l : List RawNvDef) :
    trimNvItems [] l = .ok [] := by
  induction l with
  | nil => rfl
  | cons t rest ih =>
    rw [trimNvItems, if_pos rfl]
    exact ih

theorem trimNvItems_ok {input_nv_id_list : List Int} {l kept : List RawNvDef}
    (h : trimNvItems input_nv_id_list l = .ok kept) :
    kept = l.filter (fun t =>
      match pyInt t.id_attr with
      | some n => input_nv_id_list.contains n
      | none => false) := by
  induction l generalizing kept with
  | nil =>
    rw [trimNvItems] at h
    injection h with h
    simp [← h]
  | cons t rest ih =>
    rw [trimNvItems] at h
    by_cases hids : input_nv_id_list = []
    · rw [if_pos hids] at h
      subst hids
      rw [trimNvItems_nil_ids] at h
      injection h with h
      subst h
      rw [trimNvItems_nil_ids] at ih
      have hpred : (fun t : RawNvDef =>
          match pyInt t.id_attr with
          | some n => ([] : List Int).contains n
          | none => false) = fun _ => false := by
        funext t
        cases pyInt t.id_attr <;> rfl
      simp [hpred]
      constructor
      · cases pyInt t.id_attr <;> rfl
      · intro a _
        cases pyInt a.id_attr <;> rfl
    · rw [if_neg hids] at h
      cases hp : pyInt t.id_attr with
      | none =>
        rw [hp] at h
        exact absurd h (by simp)
      | some n =>
        rw [hp] at h
        cases ht : trimNvItems input_nv_id_list rest with
        | error e =>
          rw [ht] at h
          exact absurd h (by simp)
        | ok kept' =>
          rw [ht] at h
          injection h with h
          subst h
          rw [List.filter_cons]
          have hk := ih ht
          by_cases hc : input_nv_id_list.contains n
          · simp only [hp, hc, if_pos]
            rw [hk]
          · simp only [hp, hc, if_neg]
            simp only [Bool.false_eq_true, if_false]
            rw [hk]

theorem templateLineStep_header (acc : Option String × Option String × Option String)
    (line : String) (h : reSearch "%header%" line = false) :
    (templateLineStep acc line).1 = acc.1 := by
  unfold templateLineStep
  simp only [h, Bool.false_eq_true, if_false]
  split
  · rfl
  · split
    · rfl
    · rfl

theorem templateLineStep_values (acc : Option String × Option String × Option String)
    (line : String) (h : reSearch "%values%" line = false) :
    (templateLineStep acc line).2.1 = acc.2.1 := by
  unfold templateLineStep
  split
  · rfl
  · simp only [h, Bool.false_eq_true, if_false]
    split
    · rfl
    · rfl

theorem templateLineStep_footer (acc : Option String × Option String × Option String)
    (line : String) (h : reSearch "%footer%" line = false) :
    (templateLineStep acc line).2.2 = acc.2.2 := by
  unfold templateLineStep
  split
  · rfl
  · split
    · rfl
    · simp only [h, Bool.false_eq_true, if_false]

theorem templateFold_header_none (lines : List String)
    (acc : Option String × Option String × Option String)
    (h : ∀ l ∈ lines, reSearch "%header%" l = false) :
    (lines.foldl templateLineStep acc).1 = acc.1 := by
  induction lines generalizing acc with
  | nil => rfl
  | cons x rest ih =>
    rw [List.foldl_cons]
    rw [ih _ (fun l hl => h l (List.mem_cons_of_mem x hl))]
    exact templateLineStep_header acc x (h x (List.mem_cons_self x rest))

theorem templateFold_values_none (lines : List String)
    (acc : Option String × Option String × Option String)
    (h : ∀ l ∈ lines, reSearch "%values%" l = false) :
    (lines.foldl templateLineStep acc).2.1 = acc.2.1 := by
  induction lines generalizing acc with
  | nil => rfl
  | cons x rest ih =>
    rw [List.foldl_cons]
    rw [ih _ (fun l hl => h l (List.mem_cons_of_mem x hl))]
    exact templateLineStep_values acc x (h x (List.mem_cons_self x rest))

theorem templateFold_footer_none (lines : List String)
    (acc : Option String × Option String × Option String)
    (h : ∀ l ∈ lines, reSearch "%footer%" l = false) :
    (lines.foldl templateLineStep acc).2.2 = acc.2.2 := by
  induction lines generalizing acc with
  | nil => rfl
  | cons x rest ih =>
    rw [List.foldl_cons]
    rw [ih _ (fun l hl => h l (List.mem_cons_of_mem x hl))]
    exact templateLineStep_footer acc x (h x (List.mem_cons_self x rest))

/-! ## Claim theorems -/

/-- Claim C2: for every integer id and every calibrated attribute string,
`_get_nv_type` returns `EFS` whenever the id exceeds 65535, regardless of
the calibrated value; otherwise `TA` when the trimmed, lowercased
calibrated string is `"true"`, else `ETS` when it is `"ets"`, else `NV`. -/
theorem get_nv_type_classification (nv_id : Int) (nv_calibrated : String) :
    _get_nv_type nv_id nv_calibrated =
      if nv_id > 65535 then NVType.EFS
      else if pyLower (pyStrip nv_calibrated) = "true" then NVType.TA
      else if pyLower (pyStrip nv_calibrated) = "ets" then NVType.ETS
      else NVType.NV := by
  rfl

/-- Claim C7: for every `VerificationItem` rendered by the Report
Publisher, the rendered verification state is `SKIPPED` when the input
item's type is not plain NV (regardless of the comparator result),
`FAILED` when the type is NV and the comparator result is NG, and `PASSED`
otherwise. -/
theorem publish_row_states (result_list : List VerificationItem) :
    (publish_verification_result result_list).2 =
      result_list.map (fun result =>
        if result.input_nv_item.nv_type ≠ NVType.NV then RowState.SKIPPED
        else if result.verification_result = VResult.NG then RowState.FAILED
        else RowState.PASSED) := by
  unfold publish_verification_result
  rw [publish_foldl_split]
  simp only [List.nil_append]
  have hfun :
      renderRowState = (fun result : VerificationItem =>
        if result.input_nv_item.nv_type ≠ NVType.NV then RowState.SKIPPED
        else if result.verification_result = VResult.NG then RowState.FAILED
        else RowState.PASSED) := funext renderRowState_eq
  rw [hfun]

/-- Claim C8: for every `VerificationItem` list, the overall summary
substituted into the report footer is `FAILED` if and only if the list is
empty or some item in it has input type NV and comparator result NG;
otherwise the summary is `PASSED`. -/
theorem publish_summary_failed_iff (result_list : List VerificationItem) :
    ((publish_verification_result result_list).1 = Summary.FAILED ↔
      (result_list = [] ∨ ∃ result ∈ result_list,
        result.input_nv_item.nv_type = NVType.NV ∧
        result.verification_result = VResult.NG)) ∧
    ((publish_verification_result result_list).1 ≠ Summary.FAILED →
      (publish_verification_result result_list).1 = Summary.PASSED) := by
  constructor
  · unfold publish_verification_result
    rw [publish_foldl_split]
    simp only
    rw [summary_foldl_failed_iff]
    by_cases hl : result_list = []
    · simp [hl]
    · simp [hl]
  · intro h
    cases hs : (publish_verification_result result_list).1
    · rfl
    · exact absurd hs h

/-- Claim C9: the cross-referencing step changes only the type field of
input items; every item's id, name and values are unchanged, an item's
type is replaced by a matching definition item's type exactly when some
definition item has equal id and equal name, and an item with no such
(id, name) match is left entirely unchanged. -/
theorem update_nv_items_frame
    (input_nv_item_list def_nv_item_list : List NVItem) :
    (_update_nv_items_with_def_file input_nv_item_list def_nv_item_list).length =
      input_nv_item_list.length ∧
    ∀ (i : Nat) (a : NVItem), input_nv_item_list[i]? = some a →
      ∃ r,
        (_update_nv_items_with_def_file input_nv_item_list def_nv_item_list)[i]?
          = some r ∧
        r.nv_id = a.nv_id ∧ r.nv_name = a.nv_name ∧ r.nv_values = a.nv_values ∧
        ((∃ d ∈ def_nv_item_list, d.nv_id = a.nv_id ∧ d.nv_name = a.nv_name) →
          ∃ d ∈ def_nv_item_list, d.nv_id = a.nv_id ∧ d.nv_name = a.nv_name ∧
            r.nv_type = d.nv_type) ∧
        ((¬∃ d ∈ def_nv_item_list, d.nv_id = a.nv_id ∧ d.nv_name = a.nv_name) →
          r = a) := by
  constructor
  · simp [_update_nv_items_with_def_file]
  · intro i a ha
    have hr : (_update_nv_items_with_def_file input_nv_item_list
        def_nv_item_list)[i]? =
        some (match findMatch a def_nv_item_list with
          | some d => { a with nv_type := d.nv_type }
          | none => a) := by
      unfold _update_nv_items_with_def_file
      rw [List.getElem?_map, ha, Option.map]
    cases hm : findMatch a def_nv_item_list with
    | some d =>
      rw [hm] at hr
      obtain ⟨hmem, hid, hname⟩ := findMatch_eq_some hm
      refine ⟨_, hr, rfl, rfl, rfl, ?_, ?_⟩
      · intro _
        exact ⟨d, hmem, hid.symm, hname.symm, rfl⟩
      · intro hno
        exact absurd ⟨d, hmem, hid.symm, hname.symm⟩ hno
    | none =>
      rw [hm] at hr
      refine ⟨_, hr, rfl, rfl, rfl, ?_, fun _ => rfl⟩
      rintro ⟨d, hd, hid, hname⟩
      exact absurd ⟨hid.symm, hname.symm⟩
        ((findMatch_eq_none_iff a def_nv_item_list).mp hm d hd)

/-- Claim C1: for every non-empty input item list and non-empty
device-read item list, `verify` produces exactly one `VerificationItem`
per input item, in input order; an input item is matched to a device-read
item only by exact equality on both id and name; on a match the result is
`OK` exactly when the two items' value strings are equal and `NG`
otherwise; with no match the result is `NG` and the output field is the
sentinel empty `NVItem` with id `-1` and empty name and values. -/
theorem verify_matches (input_nv_items output_nv_items : List NVItem)
    (h1 : input_nv_items ≠ []) (h2 : output_nv_items ≠ []) :
    ∃ res,
      verify input_nv_items output_nv_items false = .ok (res, none) ∧
      res.length = input_nv_items.length ∧
      ∀ (i : Nat) (a : NVItem), input_nv_items[i]? = some a →
        ∃ r, res[i]? = some r ∧
          r.input_nv_item = a ∧
          ((∃ o ∈ output_nv_items, o.nv_id = a.nv_id ∧ o.nv_name = a.nv_name) →
            r.output_nv_item ∈ output_nv_items ∧
            r.output_nv_item.nv_id = a.nv_id ∧
            r.output_nv_item.nv_name = a.nv_name ∧
            (r.verification_result = VResult.OK ↔
              a.nv_values = r.output_nv_item.nv_values) ∧
            (r.verification_result = VResult.NG ↔
              a.nv_values ≠ r.output_nv_item.nv_values)) ∧
          ((¬∃ o ∈ output_nv_items, o.nv_id = a.nv_id ∧ o.nv_name = a.nv_name) →
            r.output_nv_item = ⟨-1, "", "", NVType.NV⟩ ∧
            r.verification_result = VResult.NG) := by
  have hcond : ¬(input_nv_items = [] ∨ output_nv_items = []) :=
    not_or.mpr ⟨h1, h2⟩
  refine ⟨input_nv_items.map (verifyOne output_nv_items), ?_, by simp, ?_⟩
  · unfold verify
    rw [if_neg hcond]
    rfl
  · intro i a ha
    have hr : (input_nv_items.map (verifyOne output_nv_items))[i]? =
        some (verifyOne output_nv_items a) := by
      rw [List.getElem?_map, ha, Option.map]
    refine ⟨verifyOne output_nv_items a, hr, ?_, ?_, ?_⟩
    · unfold verifyOne
      cases hm : findMatch a output_nv_items
      · rfl
      · dsimp only
        split <;> rfl
    · rintro ⟨o, ho, hid, hname⟩
      cases hm : findMatch a output_nv_items with
      | none =>
        exact absurd ⟨hid.symm, hname.symm⟩
          ((findMatch_eq_none_iff a output_nv_items).mp hm o ho)
      | some m =>
        obtain ⟨hmem, hmid, hmname⟩ := findMatch_eq_some hm
        have hone : verifyOne output_nv_items a =
            if a.nv_values = m.nv_values then ⟨a, m, VResult.OK⟩
            else ⟨a, m, VResult.NG⟩ := by
          unfold verifyOne
          rw [hm]
        rw [hone]
        by_cases hv : a.nv_values = m.nv_values
        · rw [if_pos hv]
          exact ⟨hmem, hmid.symm, hmname.symm, by simp [hv], by simp [hv]⟩
        · rw [if_neg hv]
          exact ⟨hmem, hmid.symm, hmname.symm, by simp [hv], by simp [hv]⟩
    · intro hno
      have hm : findMatch a output_nv_items = none := by
        rw [findMatch_eq_none_iff]
        intro o ho hp
        exact hno ⟨o, ho, hp.1.symm, hp.2.symm⟩
      unfold verifyOne
      rw [hm]
      exact ⟨rfl, rfl⟩

/-- Witness for C1: the verifier on the concrete one-item lists, with both
non-emptiness preconditions discharged. -/
theorem verify_matches_witness :
    ∃ res,
      verify [⟨1, "a", "5", NVType.NV⟩] [⟨1, "a", "6", NVType.NV⟩] false =
        .ok (res, none) ∧ res.length = 1 := by
  obtain ⟨res, hok, hlen, -⟩ :=
    verify_matches [⟨1, "a", "5", NVType.NV⟩] [⟨1, "a", "6", NVType.NV⟩]
      (by simp) (by simp)
  exact ⟨res, hok, hlen⟩

/-- Claim C6: if the input item list is empty or the device-read item list
is empty, `verify` raises `NVAutomationError` before comparing anything;
no `VerificationItem` list is returned and no report is produced. -/
theorem verify_empty_error (input_nv_items output_nv_items : List NVItem)
    (report_file : Bool)
    (h : input_nv_items = [] ∨ output_nv_items = []) :
    verify input_nv_items output_nv_items report_file =
      .error VerifyError.emptyItems := by
  unfold verify
  rw [if_pos h]

/-- Witness for C6: the verifier fails fast at the concrete call with an
empty input list, even though a report file was requested. -/
theorem verify_empty_error_witness :
    verify [] [⟨1, "a", "5", NVType.NV⟩] true = .error VerifyError.emptyItems :=
  verify_empty_error [] [⟨1, "a", "5", NVType.NV⟩] true (Or.inl rfl)

/-- Claim C3: on success, the trimmed definition document contains every
`DataType` element of the master file, and contains an `NvItem` element
if and only if that element's id attribute, parsed as an integer, is a
member of the input id set; moreover the kept `NvItem` elements are
exactly the filtered master elements in order, so there are no duplicates
and no omissions. -/
theorem create_def_file_trims (input_nv_id_list : List Int)
    (master : MasterDoc) (d : TrimmedDoc) (r : Option String)
    (h : create_new_definition_file input_nv_id_list master = .ok (d, r)) :
    d.dataTypes = master.dataTypes ∧
    (∀ t, t ∈ d.nvItems ↔ (t ∈ master.nvItems ∧
      ∃ n, pyInt t.id_attr = some n ∧ n ∈ input_nv_id_list)) ∧
    d.nvItems = master.nvItems.filter (fun t =>
      match pyInt t.id_attr with
      | some n => input_nv_id_list.contains n
      | none => false) := by
  unfold create_new_definition_file at h
  cases ht : trimNvItems input_nv_id_list master.nvItems with
  | error e =>
    rw [ht] at h
    exact absurd h (by simp)
  | ok kept =>
    rw [ht] at h
    injection h with h
    have hd : d = ⟨master.dataTypes, kept⟩ := by
      have := congrArg Prod.fst h.symm
      simpa using this
    have hkept := trimNvItems_ok ht
    subst hd
    refine ⟨rfl, ?_, hkept⟩
    intro t
    simp only [hkept, List.mem_filter]
    constructor
    · rintro ⟨hmem, hpred⟩
      refine ⟨hmem, ?_⟩
      cases hp : pyInt t.id_attr with
      | none => rw [hp] at hpred; simp at hpred
      | some n =>
        rw [hp] at hpred
        exact ⟨n, rfl, by simpa using hpred⟩
    · rintro ⟨hmem, n, hp, hn⟩
      refine ⟨hmem, ?_⟩
      rw [hp]
      simpa using hn

/-- Witness for C3: the trimming theorem applied at a concrete master
document with ids {1} selecting one of two `NvItem` elements. -/
theorem create_def_file_trims_witness :
    (⟨[⟨"dt"⟩], [⟨"1", "a"⟩]⟩ : TrimmedDoc).dataTypes =
      [(⟨"dt"⟩ : DataTypeElem)] :=
  (create_def_file_trims [1] ⟨[⟨"dt"⟩], [⟨"1", "a"⟩, ⟨"2", "b"⟩]⟩
    ⟨[⟨"dt"⟩], [⟨"1", "a"⟩]⟩ none (by rfl)).1

/-- Claim C4 (code bug): `create_new_definition_file`'s docstring promises
that the newly created definition file name is returned, but the function
body has no `return` statement, so its Python return value on success is
always `None`, never the path of the file it wrote. -/
theorem create_def_file_returns_none (input_nv_id_list : List Int)
    (master : MasterDoc) (d : TrimmedDoc) (r : Option String)
    (h : create_new_definition_file input_nv_id_list master = .ok (d, r)) :
    r = none := by
  unfold create_new_definition_file at h
  cases ht : trimNvItems input_nv_id_list master.nvItems with
  | error e =>
    rw [ht] at h
    exact absurd h (by simp)
  | ok kept =>
    rw [ht] at h
    injection h with h
    have := congrArg Prod.snd h.symm
    simpa using this

/-- Counterexample to claim C5 as stated. First conjunct: an `NvItem`
element with no `name` attribute at all is read successfully (the missing
attribute is silently defaulted to the empty string), so a missing
attribute does not make the read fail with the domain error. Second
conjunct: an `NvItem` element with missing text content (no child nodes)
makes the read fail with an uncaught `IndexError` from
`tag.childNodes[0]` at line 119 of `src/__init__.py` — outside the `try`
block — rather than with the domain-level `NVAutomationError`. -/
theorem read_nv_items_claim_counterexample :
    _read_nv_items [⟨[("id", "1")], [some "5 "]⟩] =
      .ok [⟨1, "", "5", NVType.NV⟩] ∧
    _read_nv_items [⟨[("id", "1"), ("name", "a")], []⟩] =
      .error ReadError.indexError :=
  ⟨rfl, rfl⟩

theorem readOneNvItem_isOk_iff (e : RawElement) :
    (readOneNvItem e).isOk = true ↔
      ((∃ v, e.childNodes.head? = some (some v)) ∧
        (pyInt (getAttribute e "id")).isSome = true) := by
  unfold readOneNvItem
  cases hcn : e.childNodes with
  | nil => simp [Except.isOk, Except.toBool]
  | cons c cs =>
    cases c with
    | none =>
      cases hp : pyInt (getAttribute e "id") <;>
        simp [Except.isOk, Except.toBool, hp]
    | some v =>
      cases hp : pyInt (getAttribute e "id") <;>
        simp [Except.isOk, Except.toBool, hp]

theorem read_nv_items_isOk_iff (elems : List RawElement) :
    (_read_nv_items elems).isOk = true ↔
      ∀ e ∈ elems, (readOneNvItem e).isOk = true := by
  induction elems with
  | nil => simp [_read_nv_items, Except.isOk, Except.toBool]
  | cons e rest ih =>
    rw [_read_nv_items]
    cases he : readOneNvItem e with
    | error err =>
      simp only [Except.isOk, Except.toBool]
      constructor
      · intro h
        simp at h
      · intro h
        have := h e (List.mem_cons_self e rest)
        rw [he] at this
        simp [Except.isOk, Except.toBool] at this
    | ok item =>
      cases hr : _read_nv_items rest with
      | error err =>
        simp only [Except.isOk, Except.toBool]
        constructor
        · intro h
          simp at h
        · intro h
          have : ∀ x ∈ rest, (readOneNvItem x).isOk = true :=
            fun x hx => h x (List.mem_cons_of_mem e hx)
          rw [← ih, hr] at this
          simp [Except.isOk, Except.toBool] at this
      | ok items =>
        simp only [Except.isOk, Except.toBool]
        constructor
        · intro _ x hx
          rcases List.mem_cons.mp hx with rfl | hx'
          · rw [he]
          · have : (_read_nv_items rest).isOk = true := by
              rw [hr]
              rfl
            exact (ih.mp this) x hx'
        · intro _
          trivial

/-- Claim C5 amended: a non-integer id attribute (a missing id attribute
reads as the empty string and is non-integer) or a first child node whose
node value is Python `None` aborts the whole read with the domain-level
`NVAutomationError`; but an `NvItem` element with no child nodes at all
aborts the read with an uncaught `IndexError` instead, and a missing
`name` or `calibrated` attribute is defaulted to the empty string and does
not make the read fail. In every failing case the whole read aborts: the
read succeeds exactly when every element has a text-valued first child and
an integer-parsable id. -/
theorem read_nv_items_amended (elems : List RawElement) :
    ((_read_nv_items elems).isOk = true ↔ ∀ e ∈ elems,
      (∃ v, e.childNodes.head? = some (some v)) ∧
      (pyInt (getAttribute e "id")).isSome = true) ∧
    (∀ e : RawElement, readOneNvItem e = .error ReadError.indexError ↔
      e.childNodes = []) ∧
    (∀ e : RawElement, readOneNvItem e = .error ReadError.nvAutomationError ↔
      (e.childNodes ≠ [] ∧ (pyInt (getAttribute e "id") = none ∨
        e.childNodes.head? = some none))) := by
  refine ⟨?_, ?_, ?_⟩
  · rw [read_nv_items_isOk_iff]
    constructor
    · intro h e he
      exact (readOneNvItem_isOk_iff e).mp (h e he)
    · intro h e he
      exact (readOneNvItem_isOk_iff e).mpr (h e he)
  · intro e
    unfold readOneNvItem
    cases hcn : e.childNodes with
    | nil => simp
    | cons c cs =>
      cases c with
      | none =>
        cases hp : pyInt (getAttribute e "id") <;> simp [hp]
      | some v =>
        cases hp : pyInt (getAttribute e "id") <;> simp [hp]
  · intro e
    unfold readOneNvItem
    cases hcn : e.childNodes with
    | nil => simp
    | cons c cs =>
      cases c with
      | none =>
        cases hp : pyInt (getAttribute e "id") <;> simp [hp]
      | some v =>
        cases hp : pyInt (getAttribute e "id") <;> simp [hp]

/-- Witness for C4: a concrete successful run of the trimmer whose Python
return value is `None`. -/
theorem create_def_file_returns_none_witness :
    ∃ d r, create_new_definition_file [1]
        ⟨[⟨"dt"⟩], [⟨"1", "a"⟩, ⟨"2", "b"⟩]⟩ = .ok (d, r) ∧ r = none :=
  ⟨⟨[⟨"dt"⟩], [⟨"1", "a"⟩]⟩, none, by rfl,
    create_def_file_returns_none [1] ⟨[⟨"dt"⟩], [⟨"1", "a"⟩, ⟨"2", "b"⟩]⟩
      ⟨[⟨"dt"⟩], [⟨"1", "a"⟩]⟩ none (by rfl)⟩

/-- Claim C10: the template reader returns normally only when each of the
three markers `%header%`, `%values%` and `%footer%` occurs on at least one
line of the template file; if any one of the three markers appears on no
line, it fails with the unhandled local-variable error, which is not
wrapped into the domain error type; the domain error is raised only for an
unreadable file. -/
theorem read_report_template_markers (file : Option (List String)) :
    (∀ h v f, _read_report_template file = .ok (h, v, f) →
      ∃ lines, file = some lines ∧
        (∃ l ∈ lines, reSearch "%header%" l = true) ∧
        (∃ l ∈ lines, reSearch "%values%" l = true) ∧
        (∃ l ∈ lines, reSearch "%footer%" l = true)) ∧
    (∀ lines, file = some lines →
      ((∀ l ∈ lines, reSearch "%header%" l = false) ∨
       (∀ l ∈ lines, reSearch "%values%" l = false) ∨
       (∀ l ∈ lines, reSearch "%footer%" l = false)) →
      _read_report_template file = .error TemplateError.unboundLocalError) ∧
    (_read_report_template file = .error TemplateError.nvAutomationError ↔
      file = none) := by
  refine ⟨?_, ?_, ?_⟩
  · intro hh vv ff hok
    cases file with
    | none => simp [_read_report_template] at hok
    | some lines =>
      have hdef : _read_report_template (some lines) =
          (match lines.foldl templateLineStep (none, none, none) with
           | (some report_header, some report_values, some report_footer) =>
               Except.ok (report_header, report_values, report_footer)
           | _ => Except.error TemplateError.unboundLocalError) := rfl
      rw [hdef] at hok
      rcases hst : lines.foldl templateLineStep (none, none, none) with ⟨o1, o2, o3⟩
      rw [hst] at hok
      refine ⟨lines, rfl, ?_, ?_, ?_⟩
      · by_contra habs
        push_neg at habs
        have hnone : ∀ l ∈ lines, reSearch "%header%" l = false :=
          fun l hl => Bool.not_eq_true _ ▸ habs l hl
        have h1 := templateFold_header_none lines (none, none, none) hnone
        rw [hst] at h1
        have h2 : o1 = none := h1
        subst h2
        cases o2 <;> cases o3 <;> simp at hok
      · by_contra habs
        push_neg at habs
        have hnone : ∀ l ∈ lines, reSearch "%values%" l = false :=
          fun l hl => Bool.not_eq_true _ ▸ habs l hl
        have h1 := templateFold_values_none lines (none, none, none) hnone
        rw [hst] at h1
        have h2 : o2 = none := h1
        subst h2
        cases o1 <;> cases o3 <;> simp at hok
      · by_contra habs
        push_neg at habs
        have hnone : ∀ l ∈ lines, reSearch "%footer%" l = false :=
          fun l hl => Bool.not_eq_true _ ▸ habs l hl
        have h1 := templateFold_footer_none lines (none, none, none) hnone
        rw [hst] at h1
        have h2 : o3 = none := h1
        subst h2
        cases o1 <;> cases o2 <;> simp at hok
  · rintro lines rfl habs
    have hdef : _read_report_template (some lines) =
        (match lines.foldl templateLineStep (none, none, none) with
         | (some report_header, some report_values, some report_footer) =>
             Except.ok (report_header, report_values, report_footer)
         | _ => Except.error TemplateError.unboundLocalError) := rfl
    rw [hdef]
    rcases hst : lines.foldl templateLineStep (none, none, none) with ⟨o1, o2, o3⟩
    rcases habs with habs | habs | habs
    · have h1 := templateFold_header_none lines (none, none, none) habs
      rw [hst] at h1
      have h2 : o1 = none := h1
      subst h2
      cases o2 <;> cases o3 <;> rfl
    · have h1 := templateFold_values_none lines (none, none, none) habs
      rw [hst] at h1
      have h2 : o2 = none := h1
      subst h2
      cases o1 <;> cases o3 <;> rfl
    · have h1 := templateFold_footer_none lines (none, none, none) habs
      rw [hst] at h1
      have h2 : o3 = none := h1
      subst h2
      cases o1 <;> cases o2 <;> rfl
  · cases file with
    | none => simp [_read_report_template]
    | some lines =>
      have hdef : _read_report_template (some lines) =
          (match lines.foldl templateLineStep (none, none, none) with
           | (some report_header, some report_values, some report_footer) =>
               Except.ok (report_header, report_values, report_footer)
           | _ => Except.error TemplateError.unboundLocalError) := rfl
      rw [hdef]
      rcases hst : lines.foldl templateLineStep (none, none, none) with ⟨o1, o2, o3⟩
      constructor
      · intro h
        cases o1 <;> cases o2 <;> cases o3 <;> simp at h
      · intro h
        simp at h
